import Mathlib

/-!
Verification of the assert_tv test-vector session engine, shallowly embedded
from the Rust sources:

* `src/assert_tv/src/test_vec_impl.rs` — entry model, `process_next_entry`,
  `initialize_tv_case_from_file`, `finalize_tv_case`;
* `src/assert_tv/src/storage.rs` — the session registry (the thread-local
  `tls_storage` variant, the revision the crate's own integration test
  `tests/test_manual_set.rs` exercises);
* `src/assert_tv/src/lib.rs` — `TestMode::from_environment`.

The serialized value type (`serde_json::Value` in the source) is an abstract
type `V` with decidable equality: the engine only compares such values for
equality and passes them to the caller-supplied (de)serializers. Fallible
Rust operations (`anyhow::Result`) become `Except String`. The global /
thread-local registry slot (`Option<TestVecEnv>`) becomes an explicit
`Option (TestVecEnv V)` state threaded through the operations. Filesystem
reads are abstracted by a `FileSystem` record; the file write performed by
`finalize_tv_case` is reported as an explicit write event in the result.
-/

namespace AssertTv

variable {V O R : Type} [DecidableEq V]

/-- Entry kinds, mirroring `TestVectorEntryType` in test_vec_impl.rs
(lines 16-20). -/
inductive TestVectorEntryType where
  | Const
  | Output
deriving DecidableEq

/-- One observed entry, mirroring `TestVectorEntry` in test_vec_impl.rs
(lines 7-14): fields `entry_type`, `description`, `name`, `value`,
`code_location`. -/
structure TestVectorEntry (V : Type) where
  entry_type : TestVectorEntryType
  description : Option String
  name : Option String
  value : V
  code_location : Option String
deriving DecidableEq

/-- Ordered entry list, mirroring `TestVectorData` (test_vec_impl.rs
lines 22-25). Equality is element-wise over all entry fields, exactly the
derived `PartialEq` used for change detection. -/
structure TestVectorData (V : Type) where
  entries : List (TestVectorEntry V)
deriving DecidableEq

/-- File formats supported by the engine revision in test_vec_impl.rs. -/
inductive TestVectorFileFormat where
  | Json
  | Yaml
deriving DecidableEq

/-- Two-mode `TestMode` as consumed by the engine in test_vec_impl.rs:
the matches in `initialize_tv_case_from_file` (lines 183-191) and
`finalize_tv_case` (lines 204-217) cover exactly `Init` and `Check`. -/
inductive TestMode where
  | Init
  | Check
deriving DecidableEq

/-- Three-mode `TestMode` as declared in lib.rs (lines 33-38); kept as a
separate type because the engine revision above matches only two modes. -/
inductive TestModeLib where
  | Init
  | Record
  | Check
deriving DecidableEq

/-- Mirrors `TestMode::from_environment` (lib.rs lines 40-49). The argument
is the value of the `TEST_MODE` environment variable, `none` when the
variable is unset (the Rust `Err(_)` branch of `env::var`). -/
def TestModeLib.from_environment (test_mode_var : Option String) : TestModeLib :=
  match test_mode_var with
  | some "init" => TestModeLib.Init
  | some "record" => TestModeLib.Record
  | some "check" => TestModeLib.Check
  | _ => TestModeLib.Check

/-- Caller-supplied momento (trait `TestVectorMomento`): serialize the
originator type `O` to a structured value `V` and deserialize it back. -/
structure TestVectorMomento (V O : Type) where
  serialize : O → Except String V
  deserialize : V → Except String O

/-- Session state, mirroring `TestVecEnv` (test_vec_impl.rs lines 27-33). -/
structure TestVecEnv (V : Type) where
  tv_file_path : String
  file_format : TestVectorFileFormat
  loaded_tv_data : TestVectorData V
  recorded_tv_data : TestVectorData V
  test_mode : TestMode
deriving DecidableEq

/-- Mirrors `TestVecEnv::with_global` (storage.rs lines 95-107): runs `f`
on the registered session if one exists, failing otherwise. `f` receives
`&mut TestVecEnv` in Rust, so mutations it makes persist even when it
returns an error; here `f` returns the updated session next to its result. -/
def TestVecEnv.with_global (state : Option (TestVecEnv V))
    (f : TestVecEnv V → TestVecEnv V × Except String R) :
    Option (TestVecEnv V) × Except String R :=
  match state with
  | none => (none, Except.error "TestEnv not initialized.")
  | some env =>
    let r := f env
    (some r.1, r.2)

/-- Mirrors `TestVecEnv::initialize_with` (storage.rs lines 84-93, the
tls_storage variant): the slot is replaced with the new session first, and
the call then fails when the replaced value was occupied. -/
def TestVecEnv.initialize_with (env : TestVecEnv V)
    (state : Option (TestVecEnv V)) :
    Option (TestVecEnv V) × Except String Unit :=
  let previous := state
  (some env,
    match previous with
    | some _ =>
      Except.error
        "Initialized a new test vector while a previous test vector is already initialized"
    | none => Except.ok ())

/-- Abstraction of the filesystem and serde codecs used by
`TestVectorData::load_from_file`: `file_contents p` is the readable content
of the file at path `p` (`none` when `File::open` fails), and `parse_json`
/ `parse_yaml` are the serde_json / serde_yaml deserializations of a
`TestVectorData` document from that content. -/
structure FileSystem (V : Type) where
  file_contents : String → Option String
  parse_json : String → Except String (TestVectorData V)
  parse_yaml : String → Except String (TestVectorData V)

/-- Mirrors `TestVectorData::load_from_file` (test_vec_impl.rs
lines 135-151): open the file, then parse it in the session's format. -/
def TestVectorData.load_from_file (fs : FileSystem V) (tv_file_path : String)
    (file_format : TestVectorFileFormat) : Except String (TestVectorData V) :=
  match fs.file_contents tv_file_path with
  | none => Except.error ("Failed to open test vector file: " ++ tv_file_path)
  | some contents =>
    match file_format with
    | TestVectorFileFormat.Json =>
      match fs.parse_json contents with
      | Except.error e => Except.error ("Failed to parse test vector file as json: " ++ e)
      | Except.ok d => Except.ok d
    | TestVectorFileFormat.Yaml =>
      match fs.parse_yaml contents with
      | Except.error e => Except.error ("Failed to parse test vector file as yaml: " ++ e)
      | Except.ok d => Except.ok d

/-- Mirrors `initialize_tv_case_from_file` (test_vec_impl.rs lines 176-200):
compute the loaded document (empty in Init mode, parsed from the file in
Check mode, where a load failure aborts before touching the registry), then
register the new session via `initialize_with`. -/
def initialize_tv_case_from_file (fs : FileSystem V) (tv_file_path : String)
    (file_format : TestVectorFileFormat) (test_mode : TestMode)
    (state : Option (TestVecEnv V)) :
    Option (TestVecEnv V) × Except String Unit :=
  match (match test_mode with
    | TestMode.Init => Except.ok (TestVectorData.mk ([] : List (TestVectorEntry V)))
    | TestMode.Check =>
      match TestVectorData.load_from_file fs tv_file_path file_format with
      | Except.error _ =>
        Except.error "Error loading test vector. You may need to switch to init mode"
      | Except.ok d => Except.ok d) with
  | Except.error e => (state, Except.error e)
  | Except.ok loaded_tv_data =>
    TestVecEnv.initialize_with
      (TestVecEnv.mk tv_file_path file_format loaded_tv_data
        (TestVectorData.mk []) test_mode)
      state

/-- Body of the closure that `process_next_entry` passes to `with_global`
(test_vec_impl.rs lines 246-321): record the current index, look up the
loaded entry there, append the observed entry to the recorded document
unconditionally, then branch on the mode exactly as the source does. -/
def process_entry_body (M : TestVectorMomento V O)
    (observed_entry : TestVectorEntry V) (tv_env : TestVecEnv V) :
    TestVecEnv V × Except String (Option O) :=
  let entry_index := tv_env.recorded_tv_data.entries.length
  let loaded_entry := tv_env.loaded_tv_data.entries[entry_index]?
  let tv_env' := { tv_env with
    recorded_tv_data :=
      TestVectorData.mk (tv_env.recorded_tv_data.entries ++ [observed_entry]) }
  match tv_env.test_mode with
  | TestMode.Init =>
    match observed_entry.entry_type with
    | TestVectorEntryType.Const =>
      match M.deserialize observed_entry.value with
      | Except.ok v => (tv_env', Except.ok (some v))
      | Except.error e =>
        (tv_env',
          Except.error
            ("Failed to deserialize constant value right after serializing it: " ++ e))
    | TestVectorEntryType.Output => (tv_env', Except.ok none)
  | TestMode.Check =>
    match loaded_entry with
    | none =>
      (tv_env', Except.error "Observed value does not exist in loaded test vector")
    | some loaded_entry =>
      if loaded_entry.name ≠ observed_entry.name then
        (tv_env', Except.error "Observed value does not match the loaded test vectors name")
      else if loaded_entry.entry_type ≠ observed_entry.entry_type then
        (tv_env', Except.error "Observed value does not match the loaded test vectors type")
      else
        match (match loaded_entry.entry_type with
          | TestVectorEntryType.Const => Except.ok ()
          | TestVectorEntryType.Output =>
            if loaded_entry.value ≠ observed_entry.value then
              Except.error "Observed value does not match the loaded test vectors value"
            else Except.ok ()) with
        | Except.error e => (tv_env', Except.error e)
        | Except.ok _ =>
          match loaded_entry.entry_type with
          | TestVectorEntryType.Const =>
            match M.deserialize loaded_entry.value with
            | Except.ok v => (tv_env', Except.ok (some v))
            | Except.error e => (tv_env', Except.error e)
          | TestVectorEntryType.Output => (tv_env', Except.ok none)

/-- Mirrors `process_next_entry` (test_vec_impl.rs lines 231-322): serialize
the observed value (failing before the registry is consulted when the
caller's serializer fails), build the observed entry, and run the body
against the registered session. -/
def process_next_entry (M : TestVectorMomento V O)
    (entry_type : TestVectorEntryType) (description : Option String)
    (name : Option String) (observed_value : O) (code_location : Option String)
    (state : Option (TestVecEnv V)) :
    Option (TestVecEnv V) × Except String (Option O) :=
  match M.serialize observed_value with
  | Except.error e => (state, Except.error e)
  | Except.ok value =>
    TestVecEnv.with_global state
      (process_entry_body M
        (TestVectorEntry.mk entry_type description name value code_location))

/-- Mirrors `finalize_tv_case` (test_vec_impl.rs lines 202-220), with the
`with_global` lookup inlined. `is_file` is the result of
`tv_file_path.is_file()`; `store_result` is the outcome of `store_to_file`
when the code reaches it. The middle component is the write event: the
document handed to `store_to_file`, or `none` when no write is attempted. -/
def finalize_tv_case (state : Option (TestVecEnv V)) (is_file : Bool)
    (store_result : Except String Unit) :
    Option (TestVecEnv V) × Option (TestVectorData V) × Except String Unit :=
  match state with
  | none => (none, none, Except.error "TestEnv not initialized.")
  | some tv_env =>
    match tv_env.test_mode with
    | TestMode.Check => (some tv_env, none, Except.ok ())
    | TestMode.Init =>
      if tv_env.loaded_tv_data ≠ tv_env.recorded_tv_data ∨ is_file = false then
        (some tv_env, some tv_env.recorded_tv_data, store_result)
      else
        (some tv_env, none, Except.ok ())

/-- One call to the entry processor, as issued by the code under test. -/
structure ObservationCall (O : Type) where
  entry_type : TestVectorEntryType
  description : Option String
  name : Option String
  observed_value : O
  code_location : Option String

/-- Runs a sequence of `process_next_entry` calls in order, stopping at the
first error (the first detected error terminates processing of the
session). -/
def run_calls (M : TestVectorMomento V O) :
    List (ObservationCall O) → Option (TestVecEnv V) →
    Option (TestVecEnv V) × Except String Unit
  | [], state => (state, Except.ok ())
  | c :: cs, state =>
    let r := process_next_entry M c.entry_type c.description c.name
      c.observed_value c.code_location state
    match r.2 with
    | Except.error e => (r.1, Except.error e)
    | Except.ok _ => run_calls M cs r.1

/-- The observed call at position `j` agrees with the loaded entry there:
the loaded entry exists, the observed value serializes, names and kinds
match, an Output value matches the loaded value, and a Const loaded value
deserializes. -/
def CallMatches (M : TestVectorMomento V O) (L : List (TestVectorEntry V))
    (j : Nat) (c : ObservationCall O) : Prop :=
  ∃ l, L[j]? = some l ∧
    ∃ s, M.serialize c.observed_value = Except.ok s ∧
      c.name = l.name ∧
      c.entry_type = l.entry_type ∧
      (l.entry_type = TestVectorEntryType.Output → s = l.value) ∧
      (l.entry_type = TestVectorEntryType.Const →
        ∃ x, M.deserialize l.value = Except.ok x)

/-- Identity momento on `Nat`, used to instantiate witnesses. -/
def NatM : TestVectorMomento Nat Nat :=
  TestVectorMomento.mk (fun n => Except.ok n) (fun n => Except.ok n)

/-- Helper: the state component of `process_entry_body` is always the input
session with the observed entry appended to the recorded document, in every
branch of the source. -/
lemma process_entry_body_fst (M : TestVectorMomento V O)
    (e : TestVectorEntry V) (env : TestVecEnv V) :
    (process_entry_body M e env).1 =
      { env with recorded_tv_data :=
        TestVectorData.mk (env.recorded_tv_data.entries ++ [e]) } := by
  unfold process_entry_body
  dsimp only
  repeat' split
  all_goals rfl

/-- Concrete Check-mode session used by witnesses: one loaded Const entry
named "a" with value 42, nothing recorded yet. -/
def envCheckConst : TestVecEnv Nat :=
  TestVecEnv.mk "tv.json" TestVectorFileFormat.Json
    (TestVectorData.mk
      [TestVectorEntry.mk TestVectorEntryType.Const none (some "a") 42 none])
    (TestVectorData.mk []) TestMode.Check

/-- C1: a Check-mode `process_next_entry` call of kind Const whose loaded
entry at the current position has the same name and kind Const succeeds for
every observed value (the observed value is never compared against the
loaded one) and returns the deserialization of the loaded entry's value,
provided that deserialization succeeds. -/
theorem check_const_injects_loaded_value (M : TestVectorMomento V O)
    (description name : Option String) (observed_value : O)
    (code_location : Option String) (env : TestVecEnv V)
    (l : TestVectorEntry V) (s : V) (x : O)
    (hmode : env.test_mode = TestMode.Check)
    (hload : env.loaded_tv_data.entries[env.recorded_tv_data.entries.length]? =
      some l)
    (hkind : l.entry_type = TestVectorEntryType.Const)
    (hname : l.name = name)
    (hser : M.serialize observed_value = Except.ok s)
    (hdes : M.deserialize l.value = Except.ok x) :
    (process_next_entry M TestVectorEntryType.Const description name
      observed_value code_location (some env)).2 = Except.ok (some x) := by
  simp only [process_next_entry, hser, TestVecEnv.with_global,
    process_entry_body, hmode, hload]
  simp [hkind, hname, hdes]

/-- Witness for C1 at a concrete input: the loaded Const entry holds 42,
the observed value is 99, and the call returns the injected 42. -/
theorem check_const_injects_loaded_value_witness :
    envCheckConst.test_mode = TestMode.Check ∧
    envCheckConst.loaded_tv_data.entries[envCheckConst.recorded_tv_data.entries.length]? =
      some (TestVectorEntry.mk TestVectorEntryType.Const none (some "a") 42 none) ∧
    NatM.serialize 99 = Except.ok 99 ∧
    NatM.deserialize 42 = Except.ok 42 ∧
    (process_next_entry NatM TestVectorEntryType.Const none (some "a") 99 none
      (some envCheckConst)).2 = Except.ok (some 42) :=
  ⟨rfl, rfl, rfl, rfl,
    check_const_injects_loaded_value NatM none (some "a") 99 none envCheckConst
      (TestVectorEntry.mk TestVectorEntryType.Const none (some "a") 42 none)
      99 42 rfl rfl rfl rfl rfl rfl⟩

/-- C3: in Init mode `process_next_entry` never consults the loaded
document; a Const call returns the observed value serialized and
immediately deserialized back through the caller's momento, failing exactly
when that immediate round-trip fails; an Output call returns nothing; and
for a momento whose round-trip reproduces the observed value, a Const call
returns the observed value itself. -/
theorem init_mode_roundtrips_const (M : TestVectorMomento V O)
    (entry_type : TestVectorEntryType) (description name : Option String)
    (observed_value : O) (code_location : Option String)
    (env : TestVecEnv V) (s : V)
    (hmode : env.test_mode = TestMode.Init)
    (hser : M.serialize observed_value = Except.ok s) :
    (entry_type = TestVectorEntryType.Const →
      (process_next_entry M entry_type description name observed_value
        code_location (some env)).2 =
        (match M.deserialize s with
         | Except.ok v => Except.ok (some v)
         | Except.error e =>
           Except.error
             ("Failed to deserialize constant value right after serializing it: "
               ++ e))) ∧
    (entry_type = TestVectorEntryType.Output →
      (process_next_entry M entry_type description name observed_value
        code_location (some env)).2 = Except.ok none) ∧
    (∀ d₁ d₂ : TestVectorData V,
      (process_next_entry M entry_type description name observed_value
        code_location (some { env with loaded_tv_data := d₁ })).2 =
      (process_next_entry M entry_type description name observed_value
        code_location (some { env with loaded_tv_data := d₂ })).2) ∧
    (M.deserialize s = Except.ok observed_value →
      entry_type = TestVectorEntryType.Const →
      (process_next_entry M entry_type description name observed_value
        code_location (some env)).2 = Except.ok (some observed_value)) := by
  refine ⟨?_, ?_, ?_, ?_⟩
  · intro ht
    subst ht
    simp only [process_next_entry, hser, TestVecEnv.with_global,
      process_entry_body, hmode]
    cases hd : M.deserialize s <;> simp [hd]
  · intro ht
    subst ht
    simp only [process_next_entry, hser, TestVecEnv.with_global, process_entry_body]
    simp [hmode]
  · intro d₁ d₂
    simp only [process_next_entry, hser, TestVecEnv.with_global,
      process_entry_body, hmode]
    cases entry_type
    · cases hd : M.deserialize s <;> simp [hd]
    · simp
  · intro hdes ht
    subst ht
    simp only [process_next_entry, hser, TestVecEnv.with_global,
      process_entry_body, hmode]
    simp [hdes]

/-- Concrete Init-mode session used by witnesses: empty loaded and recorded
documents. -/
def envInit : TestVecEnv Nat :=
  TestVecEnv.mk "tv.json" TestVectorFileFormat.Json (TestVectorData.mk [])
    (TestVectorData.mk []) TestMode.Init

/-- Witness for C3 at a concrete input: an Init-mode Const call with the
identity momento returns its observed value 7. -/
theorem init_mode_roundtrips_const_witness :
    envInit.test_mode = TestMode.Init ∧
    NatM.serialize 7 = Except.ok 7 ∧
    NatM.deserialize 7 = Except.ok 7 ∧
    (process_next_entry NatM TestVectorEntryType.Const none none 7 none
      (some envInit)).2 = Except.ok (some 7) :=
  ⟨rfl, rfl, rfl,
    (init_mode_roundtrips_const NatM TestVectorEntryType.Const none none 7
      none envInit 7 rfl rfl).2.2.2 rfl rfl⟩

/-- C5: every `process_next_entry` call whose serialization step succeeds
appends exactly the observed entry (with the given kind, name, description,
serialized value and code location) at the end of the recorded document,
regardless of mode and of whether the call returns an error, and leaves the
loaded document unchanged. -/
theorem process_always_appends_observed (M : TestVectorMomento V O)
    (entry_type : TestVectorEntryType) (description name : Option String)
    (observed_value : O) (code_location : Option String)
    (env : TestVecEnv V) (s : V)
    (hser : M.serialize observed_value = Except.ok s) :
    ∃ env',
      (process_next_entry M entry_type description name observed_value
        code_location (some env)).1 = some env' ∧
      env'.recorded_tv_data.entries = env.recorded_tv_data.entries ++
        [TestVectorEntry.mk entry_type description name s code_location] ∧
      env'.loaded_tv_data = env.loaded_tv_data ∧
      env'.test_mode = env.test_mode ∧
      env'.tv_file_path = env.tv_file_path ∧
      env'.file_format = env.file_format := by
  refine ⟨TestVecEnv.mk env.tv_file_path env.file_format env.loaded_tv_data (TestVectorData.mk (env.recorded_tv_data.entries ++ [TestVectorEntry.mk entry_type description name s code_location])) env.test_mode, ?_, rfl, rfl, rfl, rfl, rfl⟩
  simp only [process_next_entry, hser, TestVecEnv.with_global]
  rw [process_entry_body_fst]

/-- Witness for C5 at a concrete input: a Check-mode call that fails with a
name mismatch still appends the observed entry and leaves the loaded
document unchanged. -/
theorem process_always_appends_observed_witness :
    NatM.serialize 99 = Except.ok 99 ∧
    (∃ env',
      (process_next_entry NatM TestVectorEntryType.Const none (some "other")
        99 none (some envCheckConst)).1 = some env' ∧
      env'.recorded_tv_data.entries = envCheckConst.recorded_tv_data.entries ++
        [TestVectorEntry.mk TestVectorEntryType.Const none (some "other") 99 none] ∧
      env'.loaded_tv_data = envCheckConst.loaded_tv_data ∧
      env'.test_mode = envCheckConst.test_mode ∧
      env'.tv_file_path = envCheckConst.tv_file_path ∧
      env'.file_format = envCheckConst.file_format) :=
  ⟨rfl,
    process_always_appends_observed NatM TestVectorEntryType.Const none
      (some "other") 99 none envCheckConst 99 rfl⟩

/-- C2: in Check mode (with the observed value serialized to `s`) the call
errors exactly when the loaded entry at the current position is missing, or
its name or kind differs from the observed one, or both are Output with
structurally different values, or the loaded entry is Const and the
caller's deserializer fails on its value; and an Output call that does not
error returns nothing. -/
theorem check_mode_error_characterization (M : TestVectorMomento V O)
    (entry_type : TestVectorEntryType) (description name : Option String)
    (observed_value : O) (code_location : Option String)
    (env : TestVecEnv V) (s : V)
    (hmode : env.test_mode = TestMode.Check)
    (hser : M.serialize observed_value = Except.ok s) :
    ((∃ e, (process_next_entry M entry_type description name observed_value
        code_location (some env)).2 = Except.error e) ↔
      (env.loaded_tv_data.entries[env.recorded_tv_data.entries.length]? =
        none ∨
       ∃ l, env.loaded_tv_data.entries[env.recorded_tv_data.entries.length]? =
          some l ∧
         (l.name ≠ name ∨
          l.entry_type ≠ entry_type ∨
          (l.entry_type = TestVectorEntryType.Output ∧
            entry_type = TestVectorEntryType.Output ∧ l.value ≠ s) ∨
          (l.entry_type = TestVectorEntryType.Const ∧
            ∃ e, M.deserialize l.value = Except.error e)))) ∧
    (entry_type = TestVectorEntryType.Output →
      ((process_next_entry M entry_type description name observed_value
          code_location (some env)).2 = Except.ok none ∨
       ∃ e, (process_next_entry M entry_type description name observed_value
          code_location (some env)).2 = Except.error e)) := by
  constructor
  · cases hget : env.loaded_tv_data.entries[env.recorded_tv_data.entries.length]? with
    | none =>
      simp only [process_next_entry, hser, TestVecEnv.with_global,
        process_entry_body, hmode, hget]
      simp
    | some l =>
      simp only [process_next_entry, hser, TestVecEnv.with_global,
        process_entry_body, hmode, hget]
      by_cases hn : l.name = name
      · by_cases ht : l.entry_type = entry_type
        · subst ht
          cases hlt : l.entry_type with
          | Const =>
            cases hd : M.deserialize l.value with
            | ok x => simp [hn, hlt, hd]
            | error e => simp [hn, hlt, hd]
          | Output =>
            by_cases hv : l.value = s
            · simp [hn, hlt, hv]
            · simp [hn, hlt, hv]
        · simp [hn, ht]
      · simp [hn]
  · intro ht
    subst ht
    simp only [process_next_entry, hser, TestVecEnv.with_global,
      process_entry_body, hmode]
    cases hget : env.loaded_tv_data.entries[env.recorded_tv_data.entries.length]? with
    | none => simp [hget]
    | some l =>
      simp only [hget]
      by_cases hn : l.name = name
      · by_cases hk : l.entry_type = TestVectorEntryType.Output
        · by_cases hv : l.value = s
          · simp [hn, hk, hv]
          · simp [hn, hk, hv]
        · simp [hn, hk]
      · simp [hn]

/-- Witness for C2 at a concrete input: an Output call against a loaded
Const entry of the same name, which must error (kind mismatch), plus the
instantiated characterization. -/
theorem check_mode_error_characterization_witness :
    envCheckConst.test_mode = TestMode.Check ∧
    NatM.serialize 42 = Except.ok 42 ∧
    (((∃ e, (process_next_entry NatM TestVectorEntryType.Output none
        (some "a") 42 none (some envCheckConst)).2 = Except.error e) ↔
      (envCheckConst.loaded_tv_data.entries[envCheckConst.recorded_tv_data.entries.length]? =
        none ∨
       ∃ l, envCheckConst.loaded_tv_data.entries[envCheckConst.recorded_tv_data.entries.length]? =
          some l ∧
         (l.name ≠ some "a" ∨
          l.entry_type ≠ TestVectorEntryType.Output ∨
          (l.entry_type = TestVectorEntryType.Output ∧
            TestVectorEntryType.Output = TestVectorEntryType.Output ∧
            l.value ≠ 42) ∨
          (l.entry_type = TestVectorEntryType.Const ∧
            ∃ e, NatM.deserialize l.value = Except.error e)))) ∧
    (TestVectorEntryType.Output = TestVectorEntryType.Output →
      ((process_next_entry NatM TestVectorEntryType.Output none (some "a") 42
          none (some envCheckConst)).2 = Except.ok none ∨
       ∃ e, (process_next_entry NatM TestVectorEntryType.Output none
          (some "a") 42 none (some envCheckConst)).2 = Except.error e))) :=
  ⟨rfl, rfl,
    check_mode_error_characterization NatM TestVectorEntryType.Output none
      (some "a") 42 none envCheckConst 42 rfl rfl⟩

/-- C4: `finalize_tv_case` on an Init-mode session writes the recorded
document exactly when it differs from the loaded one or the file is not
present, and on a Check-mode session never writes. -/
theorem finalize_write_characterization (env : TestVecEnv V) (is_file : Bool)
    (store_result : Except String Unit) :
    (env.test_mode = TestMode.Init →
      ((finalize_tv_case (some env) is_file store_result).2.1 =
          some env.recorded_tv_data ↔
        (env.recorded_tv_data ≠ env.loaded_tv_data ∨ is_file = false))) ∧
    (env.test_mode = TestMode.Check →
      (finalize_tv_case (some env) is_file store_result).2.1 = none) := by
  constructor
  · intro hmode
    simp only [finalize_tv_case, hmode]
    by_cases h : env.loaded_tv_data ≠ env.recorded_tv_data ∨ is_file = false
    · rw [if_pos h]
      constructor
      · intro _
        rcases h with h | h
        · exact Or.inl (fun hh => h hh.symm)
        · exact Or.inr h
      · intro _
        rfl
    · rw [if_neg h]
      push_neg at h
      constructor
      · intro hx
        exact absurd hx (by simp)
      · rintro (hr | hr)
        · exact absurd h.1.symm hr
        · exact absurd hr h.2
  · intro hmode
    simp only [finalize_tv_case, hmode]

/-- Witness for C4 at a concrete input: an Init-mode session whose recorded
document equals the loaded one writes exactly when the file is absent. -/
theorem finalize_write_characterization_witness :
    envInit.test_mode = TestMode.Init ∧
    ((finalize_tv_case (some envInit) false (Except.ok ())).2.1 =
        some envInit.recorded_tv_data ↔
      (envInit.recorded_tv_data ≠ envInit.loaded_tv_data ∨ false = false)) :=
  ⟨rfl,
    (finalize_write_characterization envInit false (Except.ok ())).1 rfl⟩

/-- C6: opening a session while one is already registered fails (in every
mode and for every filesystem), and afterwards the registry still holds
exactly one session. -/
theorem second_initialize_fails (fs : FileSystem V) (tv_file_path : String)
    (file_format : TestVectorFileFormat) (test_mode : TestMode)
    (prev : TestVecEnv V) :
    (∃ e, (initialize_tv_case_from_file fs tv_file_path file_format test_mode
        (some prev)).2 = Except.error e) ∧
    (initialize_tv_case_from_file fs tv_file_path file_format test_mode
        (some prev)).1.isSome = true := by
  unfold initialize_tv_case_from_file
  cases test_mode
  · simp [TestVecEnv.initialize_with]
  · cases hl : TestVectorData.load_from_file fs tv_file_path file_format <;>
      simp [hl, TestVecEnv.initialize_with]

/-- Filesystem with no readable files, used by witnesses. -/
def fsNone : FileSystem Nat :=
  FileSystem.mk (fun _ => none) (fun _ => Except.error "unreadable")
    (fun _ => Except.error "unreadable")

/-- Document with a single loaded Const entry, used by witnesses. -/
def dataA : TestVectorData Nat :=
  TestVectorData.mk
    [TestVectorEntry.mk TestVectorEntryType.Const none (some "a") 42 none]

/-- Filesystem whose every file parses (as json) to `dataA`, used by
witnesses. -/
def fsJsonA : FileSystem Nat :=
  FileSystem.mk (fun _ => some "file-content") (fun _ => Except.ok dataA)
    (fun _ => Except.error "not yaml")

/-- C7: opening a fresh session in Init mode succeeds with an empty loaded
document for every filesystem (the file is not consulted); in Check mode it
errors exactly when `load_from_file` does, registers the parsed document
with an empty recorded document when loading succeeds, and `load_from_file`
errors exactly when the file cannot be opened or cannot be parsed in the
given format. -/
theorem initialize_fresh_characterization (fs : FileSystem V)
    (tv_file_path : String) (file_format : TestVectorFileFormat) :
    (initialize_tv_case_from_file fs tv_file_path file_format TestMode.Init
        (none : Option (TestVecEnv V)) =
      (some (TestVecEnv.mk tv_file_path file_format (TestVectorData.mk [])
        (TestVectorData.mk []) TestMode.Init), Except.ok ())) ∧
    ((∃ e, (initialize_tv_case_from_file fs tv_file_path file_format
        TestMode.Check (none : Option (TestVecEnv V))).2 = Except.error e) ↔
      ∃ e, TestVectorData.load_from_file fs tv_file_path file_format =
        Except.error e) ∧
    (∀ d, TestVectorData.load_from_file fs tv_file_path file_format =
        Except.ok d →
      initialize_tv_case_from_file fs tv_file_path file_format TestMode.Check
        (none : Option (TestVecEnv V)) =
      (some (TestVecEnv.mk tv_file_path file_format d (TestVectorData.mk [])
        TestMode.Check), Except.ok ())) ∧
    ((∃ e, TestVectorData.load_from_file fs tv_file_path file_format =
        Except.error e) ↔
      (fs.file_contents tv_file_path = none ∨
       ∃ c, fs.file_contents tv_file_path = some c ∧
         ((file_format = TestVectorFileFormat.Json ∧
            ∃ e, fs.parse_json c = Except.error e) ∨
          (file_format = TestVectorFileFormat.Yaml ∧
            ∃ e, fs.parse_yaml c = Except.error e)))) := by
  refine ⟨rfl, ?_, ?_, ?_⟩
  · unfold initialize_tv_case_from_file
    cases hl : TestVectorData.load_from_file fs tv_file_path file_format <;>
      simp [hl, TestVecEnv.initialize_with]
  · intro d hd
    unfold initialize_tv_case_from_file
    simp [hd, TestVecEnv.initialize_with]
  · unfold TestVectorData.load_from_file
    cases hc : fs.file_contents tv_file_path with
    | none => simp [hc]
    | some c =>
      cases file_format with
      | Json => cases hp : fs.parse_json c <;> simp [hc, hp]
      | Yaml => cases hp : fs.parse_yaml c <;> simp [hc, hp]

/-- Witness for C7 at a concrete input: with `fsJsonA` a fresh Check-mode
open loads `dataA`; with `fsNone` (unreadable file) a fresh Init-mode open
still succeeds with empty documents. -/
theorem initialize_fresh_characterization_witness :
    TestVectorData.load_from_file fsJsonA "tv.json" TestVectorFileFormat.Json =
      Except.ok dataA ∧
    initialize_tv_case_from_file fsJsonA "tv.json" TestVectorFileFormat.Json
        TestMode.Check (none : Option (TestVecEnv Nat)) =
      (some (TestVecEnv.mk "tv.json" TestVectorFileFormat.Json dataA
        (TestVectorData.mk []) TestMode.Check), Except.ok ()) ∧
    initialize_tv_case_from_file fsNone "tv.json" TestVectorFileFormat.Json
        TestMode.Init (none : Option (TestVecEnv Nat)) =
      (some (TestVecEnv.mk "tv.json" TestVectorFileFormat.Json
        (TestVectorData.mk []) (TestVectorData.mk []) TestMode.Init),
        Except.ok ()) :=
  ⟨rfl,
    (initialize_fresh_characterization fsJsonA "tv.json"
      TestVectorFileFormat.Json).2.2.1 dataA rfl,
    (initialize_fresh_characterization fsNone "tv.json"
      TestVectorFileFormat.Json).1⟩

/-- C8 counterexample: the value "record" of TEST_MODE is neither "init"
nor "check", yet `from_environment` maps it to `Record`, not `Check`,
refuting the claim that every value other than "init" and "check" yields
`Check`. -/
theorem from_environment_record_not_check :
    TestModeLib.from_environment (some "record") = TestModeLib.Record ∧
    TestModeLib.from_environment (some "record") ≠ TestModeLib.Check ∧
    "record" ≠ "init" ∧ "record" ≠ "check" := by
  refine ⟨rfl, ?_, ?_, ?_⟩ <;> decide

/-- C8 amended: `from_environment` returns Init for "init", Record for
"record", Check for "check", and Check for every other value of TEST_MODE
and when the variable is missing. -/
theorem from_environment_characterization :
    TestModeLib.from_environment (some "init") = TestModeLib.Init ∧
    TestModeLib.from_environment (some "record") = TestModeLib.Record ∧
    TestModeLib.from_environment (some "check") = TestModeLib.Check ∧
    TestModeLib.from_environment none = TestModeLib.Check ∧
    (∀ v : String, v ≠ "init" → v ≠ "record" → v ≠ "check" →
      TestModeLib.from_environment (some v) = TestModeLib.Check) := by
  refine ⟨rfl, rfl, rfl, rfl, ?_⟩
  intro v h1 h2 h3
  unfold TestModeLib.from_environment
  split <;> simp_all

/-- Witness for C8 (amended) at a concrete input: an unrecognized value
falls back to Check. -/
theorem from_environment_characterization_witness :
    ("dev" : String) ≠ "init" ∧ ("dev" : String) ≠ "record" ∧
    ("dev" : String) ≠ "check" ∧
    TestModeLib.from_environment (some "dev") = TestModeLib.Check :=
  ⟨by decide, by decide, by decide,
    from_environment_characterization.2.2.2.2 "dev" (by decide) (by decide)
      (by decide)⟩

/-- C9: with no registered session, `process_next_entry` leaves the
registry empty and errors (with "TestEnv not initialized." once the
serialization step has succeeded), and `finalize_tv_case` errors the same
way without writing anything. -/
theorem uninitialized_calls_fail (M : TestVectorMomento V O)
    (entry_type : TestVectorEntryType) (description name : Option String)
    (observed_value : O) (code_location : Option String) (is_file : Bool)
    (store_result : Except String Unit) :
    ((process_next_entry M entry_type description name observed_value
        code_location (none : Option (TestVecEnv V))).1 = none ∧
      ∃ e, (process_next_entry M entry_type description name observed_value
        code_location (none : Option (TestVecEnv V))).2 = Except.error e) ∧
    ((∃ s, M.serialize observed_value = Except.ok s) →
      (process_next_entry M entry_type description name observed_value
        code_location (none : Option (TestVecEnv V))).2 =
        Except.error "TestEnv not initialized.") ∧
    finalize_tv_case (none : Option (TestVecEnv V)) is_file store_result =
      (none, none, Except.error "TestEnv not initialized.") := by
  refine ⟨?_, ?_, rfl⟩
  · cases hs : M.serialize observed_value <;>
      simp [process_next_entry, hs, TestVecEnv.with_global]
  · rintro ⟨s, hs⟩
    simp [process_next_entry, hs, TestVecEnv.with_global]

/-- Witness for C9 at a concrete input. -/
theorem uninitialized_calls_fail_witness :
    (∃ s, NatM.serialize 5 = Except.ok s) ∧
    (process_next_entry NatM TestVectorEntryType.Const none none 5 none
      (none : Option (TestVecEnv Nat))).2 =
      Except.error "TestEnv not initialized." :=
  ⟨⟨5, rfl⟩,
    (uninitialized_calls_fail NatM TestVectorEntryType.Const none none 5 none
      false (Except.ok ())).2.1 ⟨5, rfl⟩⟩

/-- Helper: a Check-mode run in which every call matches the loaded entry
at its position (offset by the entries already recorded) succeeds, and ends
with a registered Check-mode session. -/
lemma run_calls_check_ok (M : TestVectorMomento V O)
    (calls : List (ObservationCall O)) :
    ∀ env : TestVecEnv V,
      env.test_mode = TestMode.Check →
      (∀ i (hi : i < calls.length),
        CallMatches M env.loaded_tv_data.entries
          (env.recorded_tv_data.entries.length + i) (calls.get ⟨i, hi⟩)) →
      (run_calls M calls (some env)).2 = Except.ok () ∧
      ∃ env', (run_calls M calls (some env)).1 = some env' ∧
        env'.test_mode = TestMode.Check := by
  induction calls with
  | nil =>
    intro env hmode _
    exact ⟨rfl, env, rfl, hmode⟩
  | cons c cs ih =>
    intro env hmode hmatch
    obtain ⟨l, hget, s, hser, hname, htype, hout, hconst⟩ :=
      hmatch 0 (Nat.succ_pos _)
    rw [Nat.add_zero] at hget
    have hser0 : M.serialize c.observed_value = Except.ok s := hser
    have hname0 : c.name = l.name := hname
    have htype0 : c.entry_type = l.entry_type := htype
    have hstep : ∃ v, process_next_entry M c.entry_type c.description c.name
        c.observed_value c.code_location (some env) =
        (some (TestVecEnv.mk env.tv_file_path env.file_format
          env.loaded_tv_data
          (TestVectorData.mk (env.recorded_tv_data.entries ++
            [TestVectorEntry.mk c.entry_type c.description c.name s
              c.code_location]))
          env.test_mode), Except.ok v) := by
      simp only [process_next_entry, hser0, TestVecEnv.with_global,
        process_entry_body, hmode, hget]
      cases hlt : l.entry_type with
      | Const =>
        obtain ⟨x, hx⟩ := hconst hlt
        refine ⟨some x, ?_⟩
        simp [hname0, htype0, hlt, hx, hmode]
      | Output =>
        have hv := hout hlt
        refine ⟨none, ?_⟩
        simp [hname0, htype0, hlt, hv, hmode]
    obtain ⟨v, hstep⟩ := hstep
    have hrun : run_calls M (c :: cs) (some env) =
        run_calls M cs (some (TestVecEnv.mk env.tv_file_path env.file_format
          env.loaded_tv_data
          (TestVectorData.mk (env.recorded_tv_data.entries ++
            [TestVectorEntry.mk c.entry_type c.description c.name s
              c.code_location]))
          env.test_mode)) := by
      simp only [run_calls, hstep]
    rw [hrun]
    refine ih _ hmode ?_
    intro i hi
    have h := hmatch (i + 1) (Nat.succ_lt_succ hi)
    have hidx : env.recorded_tv_data.entries.length + (i + 1) =
        (env.recorded_tv_data.entries ++
          [TestVectorEntry.mk c.entry_type c.description c.name s
            c.code_location]).length + i := by
      simp only [List.length_append, List.length_cons, List.length_nil]
      omega
    rw [hidx] at h
    exact h

/-- C10: a Check-mode session that starts with nothing recorded and whose
observed calls match a strict prefix of the loaded entry sequence completes
without any error: the run of `process_next_entry` calls succeeds (the run
stops at the first error, so success means every call succeeded) and
`finalize_tv_case` returns Ok without writing — the shorter observed
sequence is never detected. -/
theorem check_prefix_run_succeeds (M : TestVectorMomento V O)
    (calls : List (ObservationCall O)) (env : TestVecEnv V) (is_file : Bool)
    (store_result : Except String Unit)
    (hmode : env.test_mode = TestMode.Check)
    (hrec : env.recorded_tv_data.entries = [])
    (hlen : calls.length < env.loaded_tv_data.entries.length)
    (hmatch : ∀ i (hi : i < calls.length),
      CallMatches M env.loaded_tv_data.entries i (calls.get ⟨i, hi⟩)) :
    (run_calls M calls (some env)).2 = Except.ok () ∧
    (finalize_tv_case (run_calls M calls (some env)).1 is_file
      store_result).2.1 = none ∧
    (finalize_tv_case (run_calls M calls (some env)).1 is_file
      store_result).2.2 = Except.ok () := by
  have hrun := run_calls_check_ok M calls env hmode (by
    intro i hi
    have h := hmatch i hi
    rw [hrec]
    simpa using h)
  obtain ⟨hok, env', henv', hmode'⟩ := hrun
  refine ⟨hok, ?_, ?_⟩ <;> rw [henv'] <;>
    simp only [finalize_tv_case, hmode']

/-- Check-mode session with two loaded entries used by the C10 witness. -/
def envCheckTwo : TestVecEnv Nat :=
  TestVecEnv.mk "tv.json" TestVectorFileFormat.Json
    (TestVectorData.mk
      [TestVectorEntry.mk TestVectorEntryType.Const none (some "a") 42 none,
       TestVectorEntry.mk TestVectorEntryType.Output none (some "sum") 43 none])
    (TestVectorData.mk []) TestMode.Check

/-- Witness for C10 at a concrete input: observing only the first of two
loaded entries (a matching Const call) completes with Ok and no write. -/
theorem check_prefix_run_succeeds_witness :
    envCheckTwo.test_mode = TestMode.Check ∧
    envCheckTwo.recorded_tv_data.entries = [] ∧
    ([ObservationCall.mk TestVectorEntryType.Const none (some "a") 99
        none].length < envCheckTwo.loaded_tv_data.entries.length) ∧
    (run_calls NatM
      [ObservationCall.mk TestVectorEntryType.Const none (some "a") 99 none]
      (some envCheckTwo)).2 = Except.ok () ∧
    (finalize_tv_case (run_calls NatM
      [ObservationCall.mk TestVectorEntryType.Const none (some "a") 99 none]
      (some envCheckTwo)).1 true (Except.ok ())).2.1 = none ∧
    (finalize_tv_case (run_calls NatM
      [ObservationCall.mk TestVectorEntryType.Const none (some "a") 99 none]
      (some envCheckTwo)).1 true (Except.ok ())).2.2 = Except.ok () := by
  have h := check_prefix_run_succeeds NatM
    [ObservationCall.mk TestVectorEntryType.Const none (some "a") 99 none]
    envCheckTwo true (Except.ok ()) rfl rfl (by decide) (by
      intro i hi
      have hi0 : i = 0 := by
        simp only [List.length_cons, List.length_nil] at hi
        omega
      subst hi0
      exact ⟨TestVectorEntry.mk TestVectorEntryType.Const none (some "a")
        42 none, rfl, 99, rfl, rfl, rfl, by decide, fun _ => ⟨42, rfl⟩⟩)
  exact ⟨rfl, rfl, by decide, h.1, h.2.1, h.2.2⟩

end AssertTv
